import Mathlib

/-!
# investordefend-server: turn simulation and incident-mitigation engine

A shallow embedding of the core simulation engine of the investordefend
game server, together with proofs about its behaviour.

Source files embedded here:
* `src/organisations/organisations.service.ts` (`simulateEvent`,
  `simulateNewTurn`, `saveBalance`);
* `src/games/games.service.ts` (`simulateTurn`);
* `src/games/simulations.service.ts` (`simulateTurn`,
  `_simulateEventsForTurn`, `_generateThreatActor`, `_generateAsset`,
  `_generateSecurityAreas`, `_generateCost`).

Modelling conventions:
* document-database identifiers (`ObjectId`) are modelled abstractly as `Nat`;
* JavaScript numbers are modelled as `ℚ`; an *optional* numeric field whose
  value may also become `NaN` (the `probability` field) is modelled as
  `Option ℚ`, with `none` standing for both `undefined` and `NaN` (both are
  falsy and both propagate through division to `NaN`);
* JavaScript truthiness of a number: `0`, `NaN` and `undefined` are falsy;
* the document store is an in-memory list, with `save` replacing the entry
  with the matching id;
* `Math.random()` is an injected stream `ℕ → ℚ` consumed left to right;
  its values are meant to lie in `[0, 1)`;
* thrown errors are `Except` errors; errors raised part-way through a
  multi-entity mutation carry the partially mutated state, mirroring the
  absence of transactions in the source.
-/

namespace InvestorDefend

/-- A document-database identifier (Mongo `ObjectId`), modelled abstractly. -/
abbrev Id := Nat

/-- From `src/_helpers/enums.ts` `GameState`. `Results` is present in the shared
enum but never set server-side. -/
inductive GameState
  | Purchasing
  | Simulating
  | Results
  | Ended
  deriving DecidableEq, Repr

/-- From `src/_helpers/enums.ts` `GameType`. -/
inductive GameType
  | SinglePlayer
  | Cooperative
  | Competitive
  deriving DecidableEq, Repr

/-- Errors thrown by the simulation engine. -/
inductive SimError
  /-- From `organisations.service.ts:367`: `'Past balance already set!'`. -/
  | pastBalanceAlreadySet
  /-- From `games.service.ts:474`: `'Game is already finished'`. -/
  | gameFinished
  /-- From `_getById` rejects when no document has the requested id. -/
  | notFound
  /-- Reading a property of `undefined` (e.g. `.slug` of a failed weighted
  selection) raises a `TypeError` in JavaScript. -/
  | typeError
  deriving DecidableEq, Repr

/-- From `src/games/control.model.ts` `ImplementedControl`: a `Control` plus
`turnImplemented` and the accumulated `mitigation` counter.  Catalog fields
irrelevant to the simulation (name, summary, img, ...) are omitted.  The
`asset` field is optional in the model (`asset?: string`). -/
structure ImplementedControl where
  id : Id
  cost : ℚ
  effectiveness : ℚ
  asset : Option String
  securityAreas : List Id
  turnImplemented : ℕ
  mitigation : ℚ
  deriving DecidableEq, Repr

/-- From `src/games/event.model.ts` `Event`. -/
structure EventC where
  id : Id
  game : Id
  turn : ℕ
  cost : ℚ
  asset : String
  threatActor : String
  securityAreas : List Id
  deriving DecidableEq, Repr

/-- From `src/games/event.model.ts` `ExperiencedEvent`: an `Event` plus the
mitigation annotations added by `simulateEvent`. -/
structure ExperiencedEvent extends EventC where
  mitigated : Bool
  mitigatedBy : Option Id
  mitigatedCost : Option ℚ
  deriving DecidableEq, Repr

/-- From `src/organisations/organisation.model.ts` `Organisation` (simulation-
relevant fields). -/
structure Organisation where
  id : Id
  balance : ℚ
  pastBalances : List ℚ
  controls : List ImplementedControl
  events : List ExperiencedEvent
  members : List Id
  deriving DecidableEq, Repr

/-- From `src/games/game.model.ts` `Game` (simulation-relevant fields). -/
structure Game where
  id : Id
  currentTurn : ℕ
  maxTurns : ℕ
  moneyPerTurn : ℚ
  state : GameState
  gameType : GameType
  organisations : List Id
  readyOrganisations : List Id
  minNumOfEvents : ℕ
  maxNumOfEvents : ℕ
  minCostPerEvent : ℚ
  maxCostPerEvent : ℚ
  allowUnavoidableIncidents : Bool
  source : String
  deriving DecidableEq, Repr

/-- From `typings` `ThreatActor` (simulation-relevant fields).  `probability` is
`Option ℚ`: `none` models a missing value and also a `NaN` produced by a
previous in-place normalisation. -/
structure ThreatActor where
  slug : String
  probability : Option ℚ
  includeFrom : Option ℚ
  costModifier : ℚ
  deriving DecidableEq, Repr

/-- From `typings` `Asset` (simulation-relevant fields). -/
structure Asset where
  slug : String
  probability : Option ℚ
  location : String
  deriving DecidableEq, Repr

/-- From `src/games/securityArea.model.ts` `SecurityArea` (simulation-relevant
fields).  The `number` field is a dotted identifier string; the sort in
`_generateSecurityAreas` compares `Number(a.number)`, which we model by
storing the numeric value directly. -/
structure SecurityArea where
  id : Id
  number : ℚ
  source : String
  deriving DecidableEq, Repr

/-! ## JavaScript helpers -/

/-- JavaScript `x || d` for an optional numeric `x`: `undefined`, `NaN`
(both `none` here) and `0` are falsy and select the default `d`. -/
def jsOrQ : Option ℚ → ℚ → ℚ
  | some q, d => if q = 0 then d else q
  | none, d => d

/-- JavaScript division of an optional numeric field by `s`:
`undefined / s` is `NaN` (`none`).  Division by zero yields a non-finite
value, which no later falsy test treats as a usable probability, so it is
also modelled as `none`. -/
def jsDivProb (p : Option ℚ) (s : ℚ) : Option ℚ :=
  if s = 0 then none else p.map (fun q => q / s)

/-- JavaScript array indexing with an `Int` index: out-of-range and negative
indices give `undefined` (`none`). -/
def jsIndex (l : List ℚ) (i : ℤ) : Option ℚ :=
  if h : 0 ≤ i ∧ i.toNat < l.length then some (l.get ⟨i.toNat, h.2⟩) else none

/-- JavaScript truthiness of an optional number: `undefined` and `0` are
falsy. -/
def jsTruthy : Option ℚ → Bool
  | some q => q != 0
  | none => false

/-! ## `organisations.service.ts`: per-organisation operations -/

/-- Rendering of a mongoose ObjectId by JavaScript `String()`: its
24-character hexadecimal string.  Modelled as the id's digits behind an
"h" tag; only the shape of the rendering matters below. -/
def hexString (i : Id) : String :=
  "h" ++ toString i

/-- Rendering of `eventSecurityArea['id']` by `String()`: `simulateEvent`
obtains the event through `eventsService.get`, whose `_getById`/`findById`
does NOT populate `securityAreas`, so each entry is a raw bson ObjectId
whose `id` property is its 12-byte buffer, and `String()` yields that
buffer's text decoding — never the 24-character hex form.  Modelled as the
id's digits behind a "b" tag. -/
def bufferString (i : Id) : String :=
  "b" ++ toString i

/-- A hex rendering never coincides with a buffer rendering: the two
strings have different shapes for every pair of ids. -/
theorem hexString_ne_bufferString (a b : Id) :
    (hexString a == bufferString b) = false := by
  rw [hexString, bufferString]
  apply beq_eq_false_iff_ne.mpr
  intro h
  have hd := congrArg String.data h
  simp at hd

/-- The matching test of `organisations.service.ts:307-313`: the triple
loop sets `mitigated` exactly when `control.asset === event.asset` and
`String(controlSecurityAreaId) === String(eventSecurityArea['id'])` for
some pair of security areas.  The left side of the area comparison renders
the control's ObjectId in hex; the right side renders the unpopulated
event area's raw buffer, so the comparison — and with it the whole match —
is false for every control and event at runtime. -/
def controlMatches (control : ImplementedControl) (event : EventC) : Bool :=
  decide (control.asset = some event.asset) &&
    control.securityAreas.any (fun ca => event.securityAreas.any (fun ea =>
      hexString ca == bufferString ea))

/-- No control ever matches an event: the area-id comparison compares two
differently shaped renderings. -/
theorem controlMatches_eq_false (control : ImplementedControl) (event : EventC) :
    controlMatches control event = false := by
  rw [controlMatches]
  simp [hexString_ne_bufferString]

/-- Consequently the control scan never finds a mitigating control. -/
theorem find?_controlMatches_eq_none (event : EventC)
    (l : List ImplementedControl) :
    l.find? (fun c => controlMatches c event) = none := by
  apply List.find?_eq_none.mpr
  intro c _
  simp [controlMatches_eq_false]

/-- The control scan of `organisations.service.ts:307-321`: walk the
implemented controls in purchase order; at the first control that matches
the event, add `event.cost - mitigatedCost` to its `mitigation` accumulator
and stop, reporting `(control.id, mitigatedCost)` with
`mitigatedCost = event.cost - event.cost * control.effectiveness`. -/
def applyControls (event : EventC) : List ImplementedControl →
    List ImplementedControl × Option (Id × ℚ)
  | [] => ([], none)
  | control :: rest =>
    if controlMatches control event then
      let mitigatedCost := event.cost - event.cost * control.effectiveness
      ({ control with mitigation := control.mitigation + (event.cost - mitigatedCost) } :: rest,
        some (control.id, mitigatedCost))
    else
      let step := applyControls event rest
      (control :: step.1, step.2)

/-- From `organisations.service.ts:295-332` `simulateEvent`, acting on one
organisation document: test the event against the implemented controls,
append the annotated event to the organisation's history, and debit the
balance by `mitigatedCost || event.cost` (so a residual cost of exactly `0`
is falsy and the full event cost is debited instead). -/
def simulateEvent (organisation : Organisation) (event : EventC) : Organisation :=
  let step := applyControls event organisation.controls
  let experienced : ExperiencedEvent :=
    { toEventC := event
      mitigated := step.2.isSome
      mitigatedBy := step.2.map Prod.fst
      mitigatedCost := step.2.map Prod.snd }
  { organisation with
    controls := step.1
    events := organisation.events ++ [experienced]
    balance := organisation.balance - jsOrQ (step.2.map Prod.snd) event.cost }

/-- From `organisations.service.ts:349-362` `simulateNewTurn`: credit the
per-turn income. -/
def simulateNewTurn (organisation : Organisation) (moneyPerTurn : ℚ) : Organisation :=
  { organisation with balance := organisation.balance + moneyPerTurn }

/-- From `organisations.service.ts:364-371` `saveBalance`: throw
`'Past balance already set!'` when `pastBalances[currentTurn - 1]` is
truthy, otherwise append the current balance.  A stored balance of `0` is
falsy, as is an out-of-range read (`undefined`). -/
def saveBalance (organisation : Organisation) (currentTurn : ℕ) :
    Except SimError Organisation :=
  if jsTruthy (jsIndex organisation.pastBalances ((currentTurn : ℤ) - 1)) then
    .error .pastBalanceAlreadySet
  else
    .ok { organisation with
      pastBalances := organisation.pastBalances ++ [organisation.balance] }

/-! ## `simulations.service.ts`: weighted-random selection -/

/-- The filter of `_generateThreatActor` (`simulations.service.ts:168-170`):
`!threatActor.includeFrom || threatActor.includeFrom <= gameProgress`.
A missing `includeFrom` and an `includeFrom` of `0` are falsy, so both pass
the filter unconditionally. -/
def includeActor (gameProgress : ℚ) (ta : ThreatActor) : Bool :=
  match ta.includeFrom with
  | none => true
  | some f => decide (f = 0) || decide (f ≤ gameProgress)

/-- The per-item increment of the selection loop
(`simulations.service.ts:186`): `threatActor.probability || 0.1`. -/
def taWeight (ta : ThreatActor) : ℚ :=
  jsOrQ ta.probability (1 / 10)

/-- The per-item increment of the asset selection loop
(`simulations.service.ts:227`): `asset.probability || 0.1`. -/
def assetWeight (a : Asset) : ℚ :=
  jsOrQ a.probability (1 / 10)

/-- From `simulations.service.ts:174-175`: sum of
`threatActor.probability || 1 / threatActors.length` over the filtered
list, where the length is that of the filtered list itself. -/
def sumProbabilitiesTA (actors : List ThreatActor) : ℚ :=
  (actors.map (fun ta => jsOrQ ta.probability (1 / (actors.length : ℚ)))).sum

/-- From `simulations.service.ts:215-216`: sum of
`asset.probability || 1 / assets.length` over the chosen asset list. -/
def sumProbabilitiesAsset (assets : List Asset) : ℚ :=
  (assets.map (fun a => jsOrQ a.probability (1 / (assets.length : ℚ)))).sum

/-- From `simulations.service.ts:180`: the in-place normalisation
`threatActor.probability = threatActor.probability / sumProbabilities`.
For an actor without an explicit probability this assigns
`undefined / sum = NaN`. -/
def normaliseTA (s : ℚ) (ta : ThreatActor) : ThreatActor :=
  { ta with probability := jsDivProb ta.probability s }

/-- From `simulations.service.ts:221`: the in-place normalisation for assets. -/
def normaliseAsset (s : ℚ) (a : Asset) : Asset :=
  { a with probability := jsDivProb a.probability s }

/-- The selection loop of `simulations.service.ts:185-189` and `:226-230`:
accumulate `probability || 0.1` over the items in order, starting from the
running sum `s`, and return the first item at which `rand <= sum`.  When no
item satisfies this the loop falls off the end of the function and
JavaScript returns `undefined` (`none`): there is no fallback. -/
def weightedSelect (weight : α → ℚ) (rand : ℚ) : List α → ℚ → Option α
  | [], _ => none
  | x :: rest, s =>
    let s1 := s + weight x
    if rand ≤ s1 then some x else weightedSelect weight rand rest s1

/-- The candidate list actually iterated by the selection loop of
`_generateThreatActor`: the catalog filtered by `includeFrom`, normalised
in place when the probabilities (with `1/n` defaults) do not sum to `1`. -/
def preprocessTA (catalog : List ThreatActor) (gameProgress : ℚ) : List ThreatActor :=
  let filtered := catalog.filter (includeActor gameProgress)
  let s := sumProbabilitiesTA filtered
  if s = 1 then filtered else filtered.map (normaliseTA s)

/-- The stored `_threatActors` catalog after a call to
`_generateThreatActor`: `filter` and `map` share element references with
the instance field, so when normalisation runs it rewrites the
`probability` of every filter-surviving actor in the stored catalog. -/
def storedTAAfter (catalog : List ThreatActor) (gameProgress : ℚ) : List ThreatActor :=
  let s := sumProbabilitiesTA (catalog.filter (includeActor gameProgress))
  if s = 1 then catalog
  else catalog.map (fun ta => if includeActor gameProgress ta then normaliseTA s ta else ta)

/-- From `simulations.service.ts:166-189` `_generateThreatActor`: the selected
actor (if any) together with the stored catalog as it stands after the
call. -/
def generateThreatActor (catalog : List ThreatActor) (gameProgress rand : ℚ) :
    Option ThreatActor × List ThreatActor :=
  (weightedSelect taWeight rand (preprocessTA catalog gameProgress) 0,
    storedTAAfter catalog gameProgress)

/-- The candidate list actually iterated by the selection loop of
`_generateAsset` (no `includeFrom` filter exists for assets). -/
def preprocessAssets (assets : List Asset) : List Asset :=
  let s := sumProbabilitiesAsset assets
  if s = 1 then assets else assets.map (normaliseAsset s)

/-- From `simulations.service.ts:209-230` `_generateAsset`: the chosen list is
`_assets` when unavoidable incidents are allowed and `_assetsWithControls`
otherwise; the selected asset is returned together with both stored lists
as they stand after the call (normalisation rewrites the chosen list's
elements in place; the source lists additionally alias each other's
elements, which this flat model does not track). -/
def generateAsset (assets assetsWithControls : List Asset)
    (allowUnavoidableIncidents : Bool) (rand : ℚ) :
    Option Asset × List Asset × List Asset :=
  let chosen := if allowUnavoidableIncidents then assets else assetsWithControls
  (weightedSelect assetWeight rand (preprocessAssets chosen) 0,
    if allowUnavoidableIncidents then (preprocessAssets chosen, assetsWithControls)
    else (assets, preprocessAssets chosen))

/-! ## `simulations.service.ts`: event generation -/

/-- From `toFixed(2)` on a numeric value: round to 2 decimal places. -/
def round2 (q : ℚ) : ℚ :=
  (round (q * 100) : ℤ) / 100

/-- From `simulations.service.ts:145-147` `_generateCost`:
`Number((Math.random() * (max - min + 1) + min).toFixed(2)) * costModifier`.
Note the `+ 1`: for `rand` in `[0, 1)` the pre-rounding draw ranges over
`[min, max + 1)`, not `[min, max]`. -/
def generateCost (min max costModifier rand : ℚ) : ℚ :=
  round2 (rand * (max - min + 1) + min) * costModifier

/-- The configuration catalogs cached on the `SimulationsService` instance
(`simulations.service.ts:35-50`): threat actors and assets from settings,
the precomputed assets-with-controls list, and the security-area catalog
served by `securityAreasService`. -/
structure Catalogs where
  threatActors : List ThreatActor
  assets : List Asset
  assetsWithControls : List Asset
  securityAreas : List SecurityArea

/-- The state read and written by event generation: the catalogs (mutated
in place by normalisation), the log of persisted events, and the random
stream with its consumption index. -/
structure GenState where
  catalogs : Catalogs
  eventLog : List EventC
  rng : ℕ → ℚ
  rngIdx : ℕ

/-- Draw the next `Math.random()` value. -/
def GenState.next (gs : GenState) : ℚ × GenState :=
  (gs.rng gs.rngIdx, { gs with rngIdx := gs.rngIdx + 1 })

/-- A stable ascending sort by `Number(number)`
(`simulations.service.ts:257`). -/
def sortAreas (areas : List SecurityArea) : List SecurityArea :=
  areas.insertionSort (fun a b => a.number ≤ b.number)

/-- The picking loop of `_generateSecurityAreas`
(`simulations.service.ts:249-255`): each round draws
`randIdx = Math.floor(random * (length - 1))` — which can never reach the
last index — then pushes that area and splices it out of the pool.  An
out-of-range read (possible only on an exhausted pool) is skipped, where
the source would push `undefined` and crash later. -/
def pickAreas : ℕ → List SecurityArea → List SecurityArea → GenState →
    List SecurityArea × GenState
  | 0, _, acc, gs => (sortAreas acc, gs)
  | Nat.succ k, pool, acc, gs =>
    let rgs := gs.next
    let randIdx := (Int.floor (rgs.1 * ((pool.length : ℚ) - 1))).toNat
    match pool.get? randIdx with
    | some sa =>
      pickAreas k (pool.take randIdx ++ pool.drop (randIdx + 1)) (acc ++ [sa]) rgs.2
    | none => pickAreas k pool acc rgs.2

/-- From `simulations.service.ts:243-258` `_generateSecurityAreas`: select
`Math.floor(random * (3 - 1 + 1) + 1)` areas (1 to 3) without replacement
from the areas under the given source, then sort ascending by number. -/
def generateSecurityAreas (source : String) (gs : GenState) :
    List SecurityArea × GenState :=
  let allAreas := gs.catalogs.securityAreas.filter (fun sa => sa.source = source)
  let rgs := gs.next
  let numOf := (Int.floor (rgs.1 * (3 - 1 + 1) + 1)).toNat
  pickAreas numOf allAreas [] rgs.2

/-- One iteration of the event-generation loop
(`simulations.service.ts:115-130`): generate actor, asset and security
areas (consuming the random stream in that order), then the cost, then
persist the new event.  A failed actor selection only surfaces as a
`TypeError` when `.costModifier` is read at the `_generateCost` call site —
after asset and security-area generation have already run (and possibly
normalised the asset catalog) but before the cost draw; a failed asset
selection only surfaces when `.slug` is read while building the event to
persist, after the cost draw. -/
def generateOneEvent (game : Game) (gs : GenState) :
    Except (SimError × GenState) (EventC × GenState) :=
  let progress := (game.currentTurn : ℚ) / (game.maxTurns : ℚ)
  let rgs1 := gs.next
  let taStep := generateThreatActor rgs1.2.catalogs.threatActors progress rgs1.1
  let gs1 := { rgs1.2 with catalogs := { rgs1.2.catalogs with threatActors := taStep.2 } }
  let rgs2 := gs1.next
  let assetStep := generateAsset rgs2.2.catalogs.assets rgs2.2.catalogs.assetsWithControls
    game.allowUnavoidableIncidents rgs2.1
  let gs2 := { rgs2.2 with catalogs :=
    { rgs2.2.catalogs with assets := assetStep.2.1, assetsWithControls := assetStep.2.2 } }
  let areasStep := generateSecurityAreas game.source gs2
  match taStep.1 with
  | none => .error (.typeError, areasStep.2)
  | some actor =>
    let rgs3 := areasStep.2.next
    let cost := generateCost game.minCostPerEvent game.maxCostPerEvent
      actor.costModifier rgs3.1
    match assetStep.1 with
    | none => .error (.typeError, rgs3.2)
    | some asset =>
      let event : EventC :=
        { id := rgs3.2.eventLog.length
          game := game.id
          turn := game.currentTurn
          cost := cost
          asset := asset.slug
          threatActor := actor.slug
          securityAreas := (areasStep.1).map (fun sa => sa.id) }
      .ok (event, { rgs3.2 with eventLog := rgs3.2.eventLog ++ [event] })

/-- The event-generation loop of `_simulateEventsForTurn`, run `n` times. -/
def generateEvents (game : Game) : ℕ → List EventC → GenState →
    Except (SimError × GenState) (List EventC × GenState)
  | 0, acc, gs => .ok (acc, gs)
  | Nat.succ k, acc, gs =>
    match generateOneEvent game gs with
    | .error e => .error e
    | .ok step => generateEvents game k (acc ++ [step.1]) step.2

/-- From `simulations.service.ts:98-133` `_simulateEventsForTurn`: draw
`numOfEvents = Math.floor(random * (maxNumOfEvents - minNumOfEvents) +
minNumOfEvents)` (exclusive upper bound) and generate that many events. -/
def simulateEventsForTurn (game : Game) (gs : GenState) :
    Except (SimError × GenState) (List EventC × GenState) :=
  let rgs := gs.next
  let numOfEvents := (Int.floor (rgs.1 * ((game.maxNumOfEvents : ℚ) -
    (game.minNumOfEvents : ℚ)) + (game.minNumOfEvents : ℚ))).toNat
  generateEvents game numOfEvents [] rgs.2

/-! ## The document store and turn orchestration -/

/-- The organisation store: fetch by id (`_getById`). -/
def getOrg (orgs : List Organisation) (oid : Id) : Option Organisation :=
  orgs.find? (fun o => o.id == oid)

/-- The organisation store: `save` replaces the document with the same id. -/
def saveOrg (orgs : List Organisation) (o : Organisation) : List Organisation :=
  orgs.map (fun o1 => if o1.id == o.id then o else o1)

/-- The world visible to the turn orchestration: the game document, the
organisation store, and the generation state (catalogs, persisted events,
random stream). -/
structure World where
  game : Game
  orgs : List Organisation
  gen : GenState

/-- The inner loop of simulations `simulateTurn`
(`simulations.service.ts:74-79`): apply each generated event to the given
organisation in generation order; every application fetches and saves the
organisation document. -/
def eventApplicationPass : List EventC → Id → List Organisation →
    Except (SimError × List Organisation) (List Organisation)
  | [], _, orgs => .ok orgs
  | event :: rest, oid, orgs =>
    match getOrg orgs oid with
    | none => .error (.notFound, orgs)
    | some o => eventApplicationPass rest oid (saveOrg orgs (simulateEvent o event))

/-- Pass A of simulations `simulateTurn` (`simulations.service.ts:71-80`):
for each organisation of the game in order, snapshot its pre-turn balance
(`saveBalance`, which may throw) and then apply every generated event.  A
thrown error propagates immediately, leaving the organisations updated so
far. -/
def orgTurnPass (events : List EventC) (currentTurn : ℕ) :
    List Id → List Organisation →
    Except (SimError × List Organisation) (List Organisation)
  | [], orgs => .ok orgs
  | oid :: rest, orgs =>
    match getOrg orgs oid with
    | none => .error (.notFound, orgs)
    | some o =>
      match saveBalance o currentTurn with
      | .error e => .error (e, orgs)
      | .ok o1 =>
        match eventApplicationPass events oid (saveOrg orgs o1) with
        | .error e => .error e
        | .ok orgs1 => orgTurnPass events currentTurn rest orgs1

/-- Pass B of simulations `simulateTurn` (`simulations.service.ts:82-87`):
after all organisations have had all events applied, credit each with the
per-turn income. -/
def incomePass (moneyPerTurn : ℚ) : List Id → List Organisation →
    Except (SimError × List Organisation) (List Organisation)
  | [], orgs => .ok orgs
  | oid :: rest, orgs =>
    match getOrg orgs oid with
    | none => .error (.notFound, orgs)
    | some o => incomePass moneyPerTurn rest (saveOrg orgs (simulateNewTurn o moneyPerTurn))

/-- From `simulations.service.ts:63-88` `simulateTurn`: generate the turn's
events, then run pass A (balance snapshot + event application) and pass B
(income) over the game's organisations.  The game document itself is never
written here. -/
def simsSimulateTurn (w : World) : Except (SimError × World) World :=
  match simulateEventsForTurn w.game w.gen with
  | .error e => .error (e.1, { w with gen := e.2 })
  | .ok step =>
    match orgTurnPass step.1 w.game.currentTurn w.game.organisations w.orgs with
    | .error e => .error (e.1, { w with gen := step.2, orgs := e.2 })
    | .ok orgs1 =>
      match incomePass w.game.moneyPerTurn w.game.organisations orgs1 with
      | .error e => .error (e.1, { w with gen := step.2, orgs := e.2 })
      | .ok orgs2 => .ok { w with gen := step.2, orgs := orgs2 }

/-- The end-of-call state advance of games `simulateTurn`
(`games.service.ts:497-501`): if `currentTurn >= maxTurns` the state is set
to `Ended` (and `currentTurn` is not touched); otherwise `currentTurn` is
incremented and the state set to `Purchasing`. -/
def advanceState (game : Game) : Game :=
  if game.maxTurns ≤ game.currentTurn then { game with state := GameState.Ended }
  else { game with currentTurn := game.currentTurn + 1, state := GameState.Purchasing }

/-- The competitive-mode push of `games.service.ts:476-477`: in a
`Competitive` game the requesting organisation is appended to
`readyOrganisations`; other game types leave the game untouched. -/
def pushReady (game : Game) (organisationId : Id) : Game :=
  if game.gameType = GameType.Competitive then
    { game with readyOrganisations := game.readyOrganisations ++ [organisationId] }
  else game

/-- From `games.service.ts:462-506` `simulateTurn`: reject `Ended` games; in
`Competitive` games push the requesting organisation onto
`readyOrganisations` and return the otherwise-unchanged game while the
ready COUNT is below the organisation count (`games.service.ts:478`
compares lengths, it does not test membership); otherwise clear
`readyOrganisations`, set the state to `Simulating`, save, run the
simulation, and advance the turn/state of the re-fetched game. -/
def gamesSimulateTurn (w : World) (organisationId : Id) :
    Except (SimError × World) World :=
  if w.game.state = GameState.Ended then .error (.gameFinished, w)
  else if (pushReady w.game organisationId).gameType = GameType.Competitive ∧
      (pushReady w.game organisationId).readyOrganisations.length <
        (pushReady w.game organisationId).organisations.length then
    .ok { w with game := pushReady w.game organisationId }
  else
    match simsSimulateTurn { w with game := { pushReady w.game organisationId with
        readyOrganisations := [], state := GameState.Simulating } } with
    | .error e => .error e
    | .ok w1 => .ok { w1 with game := advanceState w1.game }

/-! ## Characterisation of the control scan -/

/-- When no implemented control matches the event, the scan leaves the
control list untouched and reports no mitigation. -/
theorem applyControls_of_find_none (event : EventC) (l : List ImplementedControl)
    (h : l.find? (fun c => controlMatches c event) = none) :
    applyControls event l = (l, none) := by
  induction l with
  | nil => rfl
  | cons c rest ih =>
    rw [List.find?_cons] at h
    cases hp : controlMatches c event with
    | true => simp [hp] at h
    | false =>
      simp only [hp] at h
      simp [applyControls, hp, ih h]

/-- When the first matching control (in purchase order) is `c`, the scan
bumps exactly that control's `mitigation` accumulator and reports
`(c.id, mitigatedCost)`. -/
theorem applyControls_of_find_some (event : EventC) (l : List ImplementedControl)
    (c : ImplementedControl) (h : l.find? (fun c => controlMatches c event) = some c) :
    controlMatches c event = true ∧
    ∃ i, ∃ hi : i < l.length, l.get ⟨i, hi⟩ = c ∧
      applyControls event l =
        (l.set i { c with mitigation := c.mitigation +
            (event.cost - (event.cost - event.cost * c.effectiveness)) },
          some (c.id, event.cost - event.cost * c.effectiveness)) ∧
      ∀ j, ∀ hj : j < l.length, j < i →
        controlMatches (l.get ⟨j, hj⟩) event = false := by
  induction l with
  | nil => simp at h
  | cons c0 rest ih =>
    rw [List.find?_cons] at h
    cases hp : controlMatches c0 event with
    | true =>
      simp only [hp, Option.some.injEq] at h
      subst h
      refine ⟨hp, 0, by simp, rfl, ?_, ?_⟩
      · simp [applyControls, hp]
      · intro j hj hj0
        omega
    | false =>
      simp only [hp] at h
      obtain ⟨hc, i, hi, hget, happ, hbefore⟩ := ih h
      refine ⟨hc, i + 1, by simpa using Nat.succ_lt_succ hi, by simpa using hget, ?_, ?_⟩
      · simp only [applyControls, hp, if_neg, Bool.false_eq_true, not_false_iff, happ,
          List.set_cons_succ]
      · intro j hj hji
        cases j with
        | zero => simpa using hp
        | succ j0 =>
          have hj0 : j0 < rest.length := by simpa using hj
          have := hbefore j0 hj0 (by omega)
          simpa using this

/-- C1 (amended): `simulateEvent` scans the implemented controls, but the
security-area comparison at `organisations.service.ts:310` compares the
control area's 24-character hex rendering with the unpopulated event
area's raw-buffer rendering, which never coincide, so NO control ever
matches: every event is recorded with `mitigated = false`, `mitigatedBy`
and `mitigatedCost` undefined, the control list (each `mitigation`
accumulator included) is untouched, and the organisation's balance
decreases by exactly `event.cost`. -/
theorem C1_event_mitigation (org : Organisation) (event : EventC) :
    (∀ c, c ∈ org.controls → controlMatches c event = false) ∧
    (simulateEvent org event).events = org.events ++
      [{ toEventC := event, mitigated := false, mitigatedBy := none,
         mitigatedCost := none }] ∧
    (simulateEvent org event).balance = org.balance - event.cost ∧
    (simulateEvent org event).controls = org.controls := by
  have happ := applyControls_of_find_none event org.controls
    (find?_controlMatches_eq_none event org.controls)
  refine ⟨fun c _ => controlMatches_eq_false c event, ?_, ?_, ?_⟩ <;>
    simp [simulateEvent, happ, jsOrQ]

/-- The control used in the C1 counterexample: it protects the event's
asset and lists the event's security-area id, with effectiveness 0.5 —
exactly the claim's mitigation scenario. -/
def ctrlC1 : ImplementedControl :=
  { id := 201, cost := 100, effectiveness := 1 / 2, asset := some "desktop",
    securityAreas := [7], turnImplemented := 0, mitigation := 0 }

/-- The event of the C1 counterexample. -/
def evC1 : EventC :=
  { id := 301, game := 1, turn := 1, cost := 100, asset := "desktop",
    threatActor := "script-kiddie", securityAreas := [7] }

/-- The organisation of the C1 counterexample. -/
def orgC1 : Organisation :=
  { id := 11, balance := 1000, pastBalances := [], controls := [ctrlC1],
    events := [], members := [] }

/-- C1 counterexample: the claim's own mitigation scenario — a control
whose asset equals the event's asset and which lists the event's
security-area id 7, effectiveness 0.5, event cost 100 — still produces
`mitigated = false` with no `mitigatedCost`, and the balance falls by the
full cost (1000 → 900) rather than by the claimed
`mitigatedCost = 100 - 100 * 0.5 = 50` (1000 → 950): at runtime the hex
rendering of the control's area id never equals the buffer rendering of
the unpopulated event's area id. -/
theorem C1_counterexample :
    ctrlC1.asset = some evC1.asset ∧
    ctrlC1.securityAreas = [7] ∧ evC1.securityAreas = [7] ∧
    (simulateEvent orgC1 evC1).events.map ExperiencedEvent.mitigated = [false] ∧
    (simulateEvent orgC1 evC1).events.map ExperiencedEvent.mitigatedCost = [none] ∧
    (simulateEvent orgC1 evC1).balance = 900 ∧
    (900 : ℚ) ≠ 1000 - (evC1.cost - evC1.cost * ctrlC1.effectiveness) := by
  have happ := applyControls_of_find_none evC1 [ctrlC1]
    (find?_controlMatches_eq_none evC1 [ctrlC1])
  refine ⟨rfl, rfl, rfl, ?_, ?_, ?_, ?_⟩
  · simp [simulateEvent, orgC1, happ]
  · simp [simulateEvent, orgC1, happ]
  · simp only [simulateEvent, orgC1, happ, Option.map_none, jsOrQ]
    norm_num [evC1]
  · norm_num [evC1, ctrlC1]

/-- C10: one application of `simulateEvent` appends exactly one entry to
the organisation's event history, leaves `pastBalances`, `members`, the id
and the length and order of the implemented-control list unchanged,
modifies at most one control — the first matching one — and only its
`mitigation` field, and leaves every other organisation document in the
store untouched. -/
theorem C10_frame (org : Organisation) (event : EventC) (orgs : List Organisation)
    (o1 : Organisation) (h1 : o1 ∈ orgs) (h2 : o1.id ≠ org.id) :
    (∃ e, (simulateEvent org event).events = org.events ++ [e]) ∧
    (simulateEvent org event).pastBalances = org.pastBalances ∧
    (simulateEvent org event).members = org.members ∧
    (simulateEvent org event).id = org.id ∧
    (simulateEvent org event).controls.length = org.controls.length ∧
    ((simulateEvent org event).controls = org.controls ∨
      ∃ i c m, org.controls.get? i = some c ∧ controlMatches c event = true ∧
        (simulateEvent org event).controls =
          org.controls.set i { c with mitigation := m }) ∧
    o1 ∈ saveOrg orgs (simulateEvent org event) := by
  have hctrl : (simulateEvent org event).controls = org.controls ∨
      ∃ i c m, org.controls.get? i = some c ∧ controlMatches c event = true ∧
        (simulateEvent org event).controls =
          org.controls.set i { c with mitigation := m } := by
    cases h : org.controls.find? (fun c => controlMatches c event) with
    | none =>
      left
      simp [simulateEvent, applyControls_of_find_none event org.controls h]
    | some c =>
      right
      obtain ⟨hc, i, hi, hget, happ, -⟩ := applyControls_of_find_some event org.controls c h
      refine ⟨i, c, c.mitigation +
        (event.cost - (event.cost - event.cost * c.effectiveness)), ?_, hc, ?_⟩
      · rw [List.get?_eq_get hi, hget]
      · simp [simulateEvent, happ]
  have hlen : (simulateEvent org event).controls.length = org.controls.length := by
    rcases hctrl with h | ⟨i, c, m, hg, hm, hs⟩
    · rw [h]
    · rw [hs, List.length_set]
  refine ⟨⟨_, rfl⟩, rfl, rfl, rfl, hlen, hctrl, ?_⟩
  have hid : (simulateEvent org event).id = org.id := rfl
  have : (fun o2 => if o2.id == (simulateEvent org event).id then simulateEvent org event else o2) o1 = o1 := by
    simp only [hid]
    rw [if_neg]
    simp [h2]
  rw [saveOrg, ← this]
  exact List.mem_map_of_mem _ h1

/-- A second organisation, unrelated to the C1 counterexample one, used to
witness the frame property. -/
def orgOther : Organisation :=
  { id := 12, balance := 0, pastBalances := [], controls := [], events := [],
    members := [] }

/-- C10 witness: the frame conditions evaluated at the concrete C1
counterexample organisation alongside an unrelated organisation. -/
theorem C10_frame_witness :
    orgOther ∈ [orgC1, orgOther] ∧ orgOther.id ≠ orgC1.id ∧
      orgOther ∈ saveOrg [orgC1, orgOther] (simulateEvent orgC1 evC1) := by
  refine ⟨by simp, by decide, ?_⟩
  exact (C10_frame orgC1 evC1 [orgC1, orgOther] orgOther (by simp)
    (by decide)).2.2.2.2.2.2

/-! ## C6: the past-balance write-once guard -/

/-- Reading one position past the end of the list gives `undefined`. -/
theorem jsIndex_of_length_eq (l : List ℚ) (t : ℕ) (h1 : l.length = t - 1)
    (h2 : 1 ≤ t) : jsIndex l ((t : ℤ) - 1) = none := by
  rw [jsIndex, dif_neg]
  rintro ⟨h0, hlt⟩
  omega

/-- Reading the freshly appended position gives the appended value. -/
theorem jsIndex_append_self (l : List ℚ) (q : ℚ) (t : ℕ) (h1 : l.length = t - 1)
    (h2 : 1 ≤ t) : jsIndex (l ++ [q]) ((t : ℤ) - 1) = some q := by
  have htn : ((t : ℤ) - 1).toNat = l.length := by omega
  rw [jsIndex, dif_pos ⟨by omega, by simp [htn]⟩]
  simp only [List.get_eq_getElem, htn]
  exact congrArg some (List.getElem_concat_length l q l.length rfl (by simp))

/-- C6 (amended): `saveBalance` raises the fatal
`'Past balance already set!'` error exactly when
`pastBalances[currentTurn - 1]` holds a truthy — that is, non-zero — value,
and otherwise appends the organisation's current balance.  Running the
snapshot twice for the same turn therefore raises the error on the second
call whenever the balance recorded by the first call was non-zero; a
recorded balance of exactly `0` is falsy and slips through the guard, so
the second call silently appends again. -/
theorem C6_balance_guard (org : Organisation) (t : ℕ)
    (h1 : org.pastBalances.length = t - 1) (h2 : 1 ≤ t) :
    saveBalance org t =
      .ok { org with pastBalances := org.pastBalances ++ [org.balance] } ∧
    (org.balance ≠ 0 →
      saveBalance { org with pastBalances := org.pastBalances ++ [org.balance] } t =
        .error .pastBalanceAlreadySet) ∧
    (org.balance = 0 →
      saveBalance { org with pastBalances := org.pastBalances ++ [org.balance] } t =
        .ok { org with pastBalances :=
          (org.pastBalances ++ [org.balance]) ++ [org.balance] }) := by
  refine ⟨?_, ?_, ?_⟩
  · rw [saveBalance, jsIndex_of_length_eq org.pastBalances t h1 h2]
    simp [jsTruthy]
  · intro hb
    rw [saveBalance]
    simp only [jsIndex_append_self org.pastBalances org.balance t h1 h2]
    simp [jsTruthy, hb]
  · intro hb
    rw [saveBalance]
    simp only [jsIndex_append_self org.pastBalances org.balance t h1 h2]
    simp [jsTruthy, hb]

/-- C6 witness: a fresh organisation with a non-zero balance; the first
snapshot of turn 1 appends, the second raises the fatal error. -/
theorem C6_balance_guard_witness :
    (([] : List ℚ).length = 1 - 1 ∧ 1 ≤ 1) ∧
    saveBalance orgC1 1 = .ok { orgC1 with pastBalances := [1000] } ∧
    saveBalance { orgC1 with pastBalances := [1000] } 1 =
      .error .pastBalanceAlreadySet := by
  have h := C6_balance_guard orgC1 1 rfl le_rfl
  exact ⟨⟨rfl, le_rfl⟩, h.1, h.2.1 (by norm_num [orgC1])⟩

/-- The organisation of the C6 counterexample: its balance is exactly 0. -/
def orgC6 : Organisation :=
  { id := 21, balance := 0, pastBalances := [], controls := [], events := [],
    members := [] }

/-- C6 counterexample: when the recorded balance is `0`,
`pastBalances[currentTurn - 1]` is falsy, so running the turn snapshot
twice for the same turn does NOT raise `'Past balance already set!'` on the
second call — it appends a second entry instead. -/
theorem C6_counterexample :
    saveBalance orgC6 1 = .ok { orgC6 with pastBalances := [0] } ∧
    saveBalance { orgC6 with pastBalances := [0] } 1 =
      .ok { orgC6 with pastBalances := [0, 0] } := by
  constructor
  · rw [saveBalance, jsIndex_of_length_eq orgC6.pastBalances 1 rfl le_rfl]
    simp [jsTruthy, orgC6]
  · rw [saveBalance]
    have h : jsTruthy (jsIndex
        ({ orgC6 with pastBalances := [0] } : Organisation).pastBalances
        (((1 : ℕ) : ℤ) - 1)) = false := by
      have h0 : jsIndex ([] ++ [(0 : ℚ)]) (((1 : ℕ) : ℤ) - 1) = some 0 :=
        jsIndex_append_self [] 0 1 rfl le_rfl

      simp only [List.nil_append] at h0
      show jsTruthy (jsIndex [(0 : ℚ)] (((1 : ℕ) : ℤ) - 1)) = false
      rw [h0]
      simp [jsTruthy]
    rw [h]
    simp [orgC6]

/-! ## C2: turn advance and end-of-game detection -/

/-- Modelled from the spec: claim C2 and spec §4.4 Step 3 word the advance
as "increment `currentTurn`; if `currentTurn >= maxTurns`, set
`state = Ended`; otherwise set `state = Purchasing`".  Stated only for
comparison with `advanceState`, which is embedded from the source. -/
def advanceStateClaim (game : Game) : Game :=
  let g1 := { game with currentTurn := game.currentTurn + 1 }
  if g1.maxTurns ≤ g1.currentTurn then { g1 with state := GameState.Ended }
  else { g1 with state := GameState.Purchasing }

/-- The game used in the C2 counterexample: pre-increment turn 4 of 5. -/
def gameC2 : Game :=
  { id := 1, currentTurn := 4, maxTurns := 5, moneyPerTurn := 1000,
    state := GameState.Simulating, gameType := GameType.SinglePlayer,
    organisations := [11], readyOrganisations := [], minNumOfEvents := 1,
    maxNumOfEvents := 3, minCostPerEvent := 500, maxCostPerEvent := 5000,
    allowUnavoidableIncidents := true, source := "original" }

/-- C2 counterexample: the claim's increment-then-test rule diverges from
the code.  At pre-increment `currentTurn = 4` with `maxTurns = 5` the
claim's rule ends the game (4 + 1 >= 5), but the code tests before
incrementing and continues to `Purchasing` with `currentTurn = 5`; at
`currentTurn = 5` the code ends the game WITHOUT incrementing, whereas the
claim says `currentTurn` is incremented (to 6) on every call. -/
theorem C2_counterexample :
    (advanceStateClaim gameC2).state = GameState.Ended ∧
    (advanceState gameC2).state = GameState.Purchasing ∧
    (advanceState gameC2).currentTurn = 5 ∧
    (advanceState { gameC2 with currentTurn := 5 }).currentTurn = 5 ∧
    (advanceStateClaim { gameC2 with currentTurn := 5 }).currentTurn = 6 := by
  refine ⟨?_, ?_, ?_, ?_, ?_⟩ <;> rfl

/-- C2 (amended): at the end of a simulate-turn call the code first tests
`currentTurn >= maxTurns`: if so the state is set to `Ended` and
`currentTurn` is left unchanged; otherwise `currentTurn` is incremented and
the state set to `Purchasing`.  Consequently a game with `maxTurns = 5`
starting at `currentTurn = 1` stays in `Purchasing` through the first four
calls (reaching `currentTurn = 5`) and transitions to `Ended` exactly on
the call whose pre-increment `currentTurn` equals 5, never earlier. -/
theorem C2_end_of_game (g : Game) (h1 : g.maxTurns = 5) (h2 : g.currentTurn = 1) :
    (∀ g2 : Game, g2.maxTurns = 5 →
      ((advanceState g2).state = GameState.Ended ↔ 5 ≤ g2.currentTurn)) ∧
    (∀ k, 1 ≤ k → k ≤ 4 →
      (advanceState^[k] g).state = GameState.Purchasing ∧
      (advanceState^[k] g).currentTurn = k + 1) ∧
    (advanceState^[5] g).state = GameState.Ended ∧
    (advanceState^[5] g).currentTurn = 5 := by
  have hstep : ∀ g2 : Game, g2.currentTurn < g2.maxTurns → advanceState g2 =
      { g2 with currentTurn := g2.currentTurn + 1, state := GameState.Purchasing } := by
    intro g2 hlt
    rw [advanceState, if_neg (by omega)]
  have hend : ∀ g2 : Game, g2.maxTurns ≤ g2.currentTurn →
      advanceState g2 = { g2 with state := GameState.Ended } := by
    intro g2 hle
    rw [advanceState, if_pos hle]
  have e1 : advanceState^[1] g =
      { g with currentTurn := 2, state := GameState.Purchasing } := by
    rw [Function.iterate_one, hstep g (by omega), h2]
  have e2 : advanceState^[2] g =
      { g with currentTurn := 3, state := GameState.Purchasing } := by
    rw [show (2 : ℕ) = 1 + 1 from rfl, Function.iterate_succ_apply', e1,
      hstep _ (by simp [h1])]
  have e3 : advanceState^[3] g =
      { g with currentTurn := 4, state := GameState.Purchasing } := by
    rw [show (3 : ℕ) = 2 + 1 from rfl, Function.iterate_succ_apply', e2,
      hstep _ (by simp [h1])]
  have e4 : advanceState^[4] g =
      { g with currentTurn := 5, state := GameState.Purchasing } := by
    rw [show (4 : ℕ) = 3 + 1 from rfl, Function.iterate_succ_apply', e3,
      hstep _ (by simp [h1])]
  have e5 : advanceState^[5] g =
      { g with currentTurn := 5, state := GameState.Ended } := by
    rw [show (5 : ℕ) = 4 + 1 from rfl, Function.iterate_succ_apply', e4,
      hend _ (by simp [h1])]
  refine ⟨?_, ?_, by rw [e5], by rw [e5]⟩
  · intro g2 hm
    constructor
    · intro hst
      by_contra hlt
      rw [hstep g2 (by omega)] at hst
      exact absurd hst (by simp)
    · intro hge
      rw [hend g2 (by omega)]
  · intro k hk1 hk4
    interval_cases k
    · exact ⟨by rw [e1], by rw [e1]⟩
    · exact ⟨by rw [e2], by rw [e2]⟩
    · exact ⟨by rw [e3], by rw [e3]⟩
    · exact ⟨by rw [e4], by rw [e4]⟩

/-- C2 witness: the amended end-of-game behaviour evaluated on a concrete
game starting at turn 1 of 5. -/
theorem C2_end_of_game_witness :
    ({ gameC2 with currentTurn := 1 } : Game).maxTurns = 5 ∧
    ({ gameC2 with currentTurn := 1 } : Game).currentTurn = 1 ∧
    (advanceState^[4] { gameC2 with currentTurn := 1 }).state =
      GameState.Purchasing ∧
    (advanceState^[5] { gameC2 with currentTurn := 1 }).state =
      GameState.Ended := by
  have h := C2_end_of_game { gameC2 with currentTurn := 1 } rfl rfl
  exact ⟨rfl, rfl, (h.2.1 4 (by norm_num) le_rfl).1, h.2.2.1⟩

/-! ## C8: rejection of simulate-turn on an ended game -/

/-- C8: a simulate-turn request against an `Ended` game raises the fatal
`'Game is already finished'` error, and the rejected request mutates
nothing: the world — game document, organisation store with balances and
histories, event log and random stream — is returned exactly as it was. -/
theorem C8_ended_rejection (w : World) (oid : Id)
    (h : w.game.state = GameState.Ended) :
    gamesSimulateTurn w oid = .error (.gameFinished, w) := by
  rw [gamesSimulateTurn, if_pos h]

/-- The generation state used by concrete worlds: empty catalogs, no
persisted events, and the all-zeros random stream. -/
def genEmpty : GenState :=
  { catalogs :=
      { threatActors := [], assets := [], assetsWithControls := [],
        securityAreas := [] },
    eventLog := [], rng := fun _ => 0, rngIdx := 0 }

/-- The world of the C8 witness: a finished game. -/
def worldC8 : World :=
  { game := { gameC2 with state := GameState.Ended }, orgs := [orgC1],
    gen := genEmpty }

/-- C8 witness: the rejection evaluated on a concrete ended game. -/
theorem C8_ended_rejection_witness :
    worldC8.game.state = GameState.Ended ∧
    gamesSimulateTurn worldC8 11 = .error (.gameFinished, worldC8) :=
  ⟨rfl, C8_ended_rejection worldC8 11 rfl⟩

/-! ## C4, C5, C9: properties of the weighted-random selection -/

/-- A threat actor without an explicit probability. -/
def taNoProbA : ThreatActor :=
  { slug := "script-kiddie", probability := none, includeFrom := none,
    costModifier := 1 }

/-- A second threat actor without an explicit probability. -/
def taNoProbB : ThreatActor :=
  { slug := "hacktivist", probability := none, includeFrom := none,
    costModifier := 1 }

/-- An asset without an explicit probability. -/
def asNoProbA : Asset :=
  { slug := "desktop", probability := none, location := "org-0-2" }

/-- A second asset without an explicit probability. -/
def asNoProbB : Asset :=
  { slug := "laptop", probability := none, location := "org-3-1" }

/-- C4 (code bug): with two candidates lacking explicit probabilities the
filtered count is n = 2, so the claim — and the doc comments of
`_generateThreatActor` and `_generateAsset` themselves — give each an
effective probability of 1/2, summing to 1.  The code uses the `1/n`
default only when SUMMING the probabilities (2 * 1/2 = 1, so normalisation
is skipped), but accumulates `probability || 0.1` when SELECTING, so each
item's effective selection weight is 0.1, the weights sum to 0.2 ≠ 1, and
a draw of r = 0.15 selects the SECOND item where 1/n-weights would select
the first. -/
theorem C4_default_probability_bug :
    preprocessTA [taNoProbA, taNoProbB] 0 = [taNoProbA, taNoProbB] ∧
    (preprocessTA [taNoProbA, taNoProbB] 0).map taWeight = [1 / 10, 1 / 10] ∧
    ((1 : ℚ) / 10 ≠ 1 / 2) ∧ ([(1 : ℚ) / 10, 1 / 10].sum ≠ 1) ∧
    (generateThreatActor [taNoProbA, taNoProbB] 0 (3 / 20)).1 = some taNoProbB ∧
    (preprocessAssets [asNoProbA, asNoProbB]).map assetWeight = [1 / 10, 1 / 10] ∧
    (generateAsset [asNoProbA, asNoProbB] [] true (3 / 20)).1 = some asNoProbB := by
  have hpre : preprocessTA [taNoProbA, taNoProbB] 0 = [taNoProbA, taNoProbB] := by
    rw [preprocessTA]
    norm_num [sumProbabilitiesTA, jsOrQ, includeActor, taNoProbA, taNoProbB,
      List.filter]
  have hpreA : preprocessAssets [asNoProbA, asNoProbB] = [asNoProbA, asNoProbB] := by
    rw [preprocessAssets]
    norm_num [sumProbabilitiesAsset, jsOrQ, asNoProbA, asNoProbB]
  refine ⟨hpre, ?_, by norm_num, by norm_num, ?_, ?_, ?_⟩
  · rw [hpre]
    norm_num [taWeight, jsOrQ, taNoProbA, taNoProbB]
  · show weightedSelect taWeight (3 / 20) (preprocessTA [taNoProbA, taNoProbB] 0) 0 =
      some taNoProbB
    rw [hpre, weightedSelect]
    norm_num [taWeight, jsOrQ, taNoProbA, taNoProbB, weightedSelect]
  · rw [hpreA]
    norm_num [assetWeight, jsOrQ, asNoProbA, asNoProbB]
  · show weightedSelect assetWeight (3 / 20)
      (preprocessAssets (if true then [asNoProbA, asNoProbB] else [])) 0 = some asNoProbB
    rw [if_pos rfl, hpreA, weightedSelect]
    norm_num [assetWeight, jsOrQ, asNoProbA, asNoProbB, weightedSelect]

/-- The running-sum characterisation of the selection loop: a `some` result
is the first item (in list order) whose running sum reaches or exceeds the
draw, and a `none` result means no prefix sum ever reaches the draw. -/
theorem weightedSelect_spec {α : Type} (weight : α → ℚ) (r : ℚ) (l : List α)
    (s : ℚ) :
    match weightedSelect weight r l s with
    | some x => ∃ i, ∃ hi : i < l.length, l.get ⟨i, hi⟩ = x ∧
        r ≤ s + ((l.take (i + 1)).map weight).sum ∧
        ∀ j, j < i → s + ((l.take (j + 1)).map weight).sum < r
    | none => ∀ i, 1 ≤ i → i ≤ l.length → s + ((l.take i).map weight).sum < r := by
  induction l generalizing s with
  | nil =>
    intro i h1 h2
    simp at h2
    omega
  | cons x rest ih =>
    rw [weightedSelect]
    by_cases hr : r ≤ s + weight x
    · rw [if_pos hr]
      refine ⟨0, by simp, rfl, by simpa using hr, ?_⟩
      intro j hj
      omega
    · rw [if_neg hr]
      have hlt : s + weight x < r := lt_of_not_ge hr
      have h := ih (s + weight x)
      cases hw : weightedSelect weight r rest (s + weight x) with
      | some y =>
        rw [hw] at h
        obtain ⟨i, hi, hget, hle, hbefore⟩ := h
        refine ⟨i + 1, by simpa using Nat.succ_lt_succ hi, hget, ?_, ?_⟩
        · simp only [List.take_succ_cons, List.map_cons, List.sum_cons]
          linarith
        · intro j hj
          cases j with
          | zero => simpa using hlt
          | succ j0 =>
            have := hbefore j0 (by omega)
            simp only [List.take_succ_cons, List.map_cons, List.sum_cons]
            linarith
      | none =>
        rw [hw] at h
        intro i h1 h2
        cases i with
        | zero => omega
        | succ n =>
          simp only [List.take_succ_cons, List.map_cons, List.sum_cons]
          cases n with
          | zero => simpa using hlt
          | succ m =>
            have := h (m + 1) (by omega) (by simpa using h2)
            linarith

/-- C5 (amended): for every candidate list and draw `r`, the weighted
selection returns the first item (in list order) at which the running sum
of effective weights (`probability || 0.1` over the preprocessed list)
reaches or exceeds `r`; when no prefix of the weights reaches `r` — as
happens already for a single item without an explicit probability and
`r > 0.1` — the selection returns NOTHING.  There is no last-item
fallback. -/
theorem C5_selection_characterisation (actors : List ThreatActor)
    (assets awc : List Asset) (gameProgress r : ℚ) (allow : Bool) :
    (match (generateThreatActor actors gameProgress r).1 with
     | some ta => ∃ i, ∃ hi : i < (preprocessTA actors gameProgress).length,
         (preprocessTA actors gameProgress).get ⟨i, hi⟩ = ta ∧
         r ≤ (((preprocessTA actors gameProgress).take (i + 1)).map taWeight).sum ∧
         ∀ j, j < i →
           (((preprocessTA actors gameProgress).take (j + 1)).map taWeight).sum < r
     | none => ∀ i, 1 ≤ i → i ≤ (preprocessTA actors gameProgress).length →
         (((preprocessTA actors gameProgress).take i).map taWeight).sum < r) ∧
    (match (generateAsset assets awc allow r).1 with
     | some a =>
         ∃ i, ∃ hi : i < (preprocessAssets (if allow then assets else awc)).length,
         (preprocessAssets (if allow then assets else awc)).get ⟨i, hi⟩ = a ∧
         r ≤ (((preprocessAssets (if allow then assets else awc)).take (i + 1)).map
           assetWeight).sum ∧
         ∀ j, j < i →
           (((preprocessAssets (if allow then assets else awc)).take (j + 1)).map
             assetWeight).sum < r
     | none => ∀ i, 1 ≤ i →
         i ≤ (preprocessAssets (if allow then assets else awc)).length →
         (((preprocessAssets (if allow then assets else awc)).take i).map
           assetWeight).sum < r) := by
  constructor
  · have h := weightedSelect_spec taWeight r (preprocessTA actors gameProgress) 0
    show match weightedSelect taWeight r (preprocessTA actors gameProgress) 0 with
      | some ta => _ | none => _
    cases hw : weightedSelect taWeight r (preprocessTA actors gameProgress) 0 with
    | some ta =>
      rw [hw] at h
      obtain ⟨i, hi, hget, hle, hbefore⟩ := h
      exact ⟨i, hi, hget, by simpa using hle, fun j hj => by simpa using hbefore j hj⟩
    | none =>
      rw [hw] at h
      intro i h1 h2
      simpa using h i h1 h2
  · have h := weightedSelect_spec assetWeight r
      (preprocessAssets (if allow then assets else awc)) 0
    show match weightedSelect assetWeight r
        (preprocessAssets (if allow then assets else awc)) 0 with
      | some a => _ | none => _
    cases hw : weightedSelect assetWeight r
        (preprocessAssets (if allow then assets else awc)) 0 with
    | some a =>
      rw [hw] at h
      obtain ⟨i, hi, hget, hle, hbefore⟩ := h
      exact ⟨i, hi, hget, by simpa using hle, fun j hj => by simpa using hbefore j hj⟩
    | none =>
      rw [hw] at h
      intro i h1 h2
      simpa using h i h1 h2

/-- C5 counterexample: a single candidate without an explicit probability
is a non-empty post-filtering list, and for the draw r = 0.5 the running
sum only ever reaches 0.1, so both `_generateThreatActor` and
`_generateAsset` return NOTHING — the claimed last-item fallback does not
exist in the code. -/
theorem C5_counterexample :
    (generateThreatActor [taNoProbA] 0 (1 / 2)).1 = none ∧
    (generateAsset [asNoProbA] [] true (1 / 2)).1 = none := by
  have hpre : preprocessTA [taNoProbA] 0 = [taNoProbA] := by
    rw [preprocessTA]
    norm_num [sumProbabilitiesTA, jsOrQ, includeActor, taNoProbA, List.filter]
  have hpreA : preprocessAssets [asNoProbA] = [asNoProbA] := by
    rw [preprocessAssets]
    norm_num [sumProbabilitiesAsset, jsOrQ, asNoProbA]
  constructor
  · show weightedSelect taWeight (1 / 2) (preprocessTA [taNoProbA] 0) 0 = none
    rw [hpre, weightedSelect]
    norm_num [taWeight, jsOrQ, taNoProbA, weightedSelect]
  · show weightedSelect assetWeight (1 / 2)
      (preprocessAssets (if true then [asNoProbA] else [])) 0 = none
    rw [if_pos rfl, hpreA, weightedSelect]
    norm_num [assetWeight, jsOrQ, asNoProbA, weightedSelect]

/-- A threat actor with explicit probability 0.3. -/
def taP3A : ThreatActor :=
  { slug := "rival-corporation", probability := some (3 / 10),
    includeFrom := none, costModifier := 1 }

/-- A second threat actor with explicit probability 0.3. -/
def taP3B : ThreatActor :=
  { slug := "nation-state", probability := some (3 / 10), includeFrom := none,
    costModifier := 2 }

/-- An asset with explicit probability 0.3. -/
def asP3A : Asset :=
  { slug := "wifi", probability := some (3 / 10), location := "org-2-3" }

/-- A second asset with explicit probability 0.3. -/
def asP3B : Asset :=
  { slug := "router", probability := some (3 / 10), location := "org-3-3" }

/-- C9 (code bug): the weighted selection is NOT free of side effects.
`filter` and `map` share element references with the instance fields, so
when the probabilities do not sum to 1 the normalisation rewrites the
stored `probability` values in place: after a call with two actors (or
assets) of probability 0.3 each, the stored catalogs hold probability 0.5
each — not their original values, contradicting the source's own intent
("Use a local variable in case values need to be normalised"). -/
theorem C9_catalog_mutation_bug :
    (generateThreatActor [taP3A, taP3B] 0 0).2 =
      [{ taP3A with probability := some (1 / 2) },
       { taP3B with probability := some (1 / 2) }] ∧
    (generateThreatActor [taP3A, taP3B] 0 0).2 ≠ [taP3A, taP3B] ∧
    (generateAsset [asP3A, asP3B] [] true 0).2.1 =
      [{ asP3A with probability := some (1 / 2) },
       { asP3B with probability := some (1 / 2) }] ∧
    (generateAsset [asP3A, asP3B] [] true 0).2.1 ≠ [asP3A, asP3B] := by
  have h1 : (generateThreatActor [taP3A, taP3B] 0 0).2 =
      [{ taP3A with probability := some (1 / 2) },
       { taP3B with probability := some (1 / 2) }] := by
    show storedTAAfter [taP3A, taP3B] 0 = _
    rw [storedTAAfter]
    norm_num [sumProbabilitiesTA, jsOrQ, includeActor, normaliseTA, jsDivProb,
      taP3A, taP3B, List.filter]
  have h2 : (generateAsset [asP3A, asP3B] [] true 0).2.1 =
      [{ asP3A with probability := some (1 / 2) },
       { asP3B with probability := some (1 / 2) }] := by
    show preprocessAssets (if true then [asP3A, asP3B] else []) = _
    rw [if_pos rfl, preprocessAssets]
    norm_num [sumProbabilitiesAsset, jsOrQ, normaliseAsset, jsDivProb, asP3A, asP3B]
  refine ⟨h1, ?_, h2, ?_⟩
  · rw [h1]
    intro hcontra
    have := List.head_eq_of_cons_eq hcontra
    rw [ThreatActor.mk.injEq] at this
    norm_num [taP3A] at this
  · rw [h2]
    intro hcontra
    have := List.head_eq_of_cons_eq hcontra
    rw [Asset.mk.injEq] at this
    norm_num [asP3A] at this

/-! ## C7: the event-cost formula -/

/-- Rounding to two decimal places is monotone. -/
theorem round2_le_round2 (a b : ℚ) (h : a ≤ b) : round2 a ≤ round2 b := by
  rw [round2, round2]
  have h2 : round (a * 100) ≤ round (b * 100) := by
    rw [round_eq, round_eq]
    exact Int.floor_le_floor (by linarith)
  have h3 : ((round (a * 100) : ℤ) : ℚ) ≤ ((round (b * 100) : ℤ) : ℚ) :=
    Int.cast_le.mpr h2
  linarith

/-- C7 (amended): the event cost is
`round2(rand * (max - min + 1) + min) * costModifier`; for `rand` in
`[0, 1)` the pre-rounding base draw ranges over `[min, max + 1)` — the
upper bound is `max + 1` exclusive, NOT `max` inclusive — and a base draw
of exactly 1000.00 with `costModifier` 2.0 still yields a final cost of
2000.00. -/
theorem C7_cost_formula (min max costModifier r : ℚ) (h0 : 0 ≤ r)
    (h1 : r < 1) (hmm : min ≤ max) :
    generateCost min max costModifier r =
      round2 (r * (max - min + 1) + min) * costModifier ∧
    min ≤ r * (max - min + 1) + min ∧
    r * (max - min + 1) + min < max + 1 ∧
    generateCost 500 5000 2 (500 / 4501) = 2000 := by
  have hpos : (0 : ℚ) < max - min + 1 := by linarith
  refine ⟨rfl, by nlinarith, by nlinarith, ?_⟩
  rw [generateCost, round2]
  have hbase : (500 / 4501 : ℚ) * (5000 - 500 + 1) + 500 = 1000 := by norm_num
  rw [hbase]
  have hround : round ((1000 : ℚ) * 100) = 100000 := by
    rw [round_eq, Int.floor_eq_iff]
    norm_num
  rw [hround]
  norm_num

/-- C7 witness: the amended formula and bounds evaluated at the spec's
example configuration and a concrete draw. -/
theorem C7_cost_formula_witness :
    ((0 : ℚ) ≤ 9 / 10 ∧ (9 / 10 : ℚ) < 1 ∧ (500 : ℚ) ≤ 5000) ∧
    (500 : ℚ) ≤ (9 / 10) * (5000 - 500 + 1) + 500 ∧
    (9 / 10 : ℚ) * (5000 - 500 + 1) + 500 < 5000 + 1 ∧
    generateCost 500 5000 2 (500 / 4501) = 2000 := by
  have h := C7_cost_formula 500 5000 2 (9 / 10) (by norm_num) (by norm_num)
    (by norm_num)
  exact ⟨⟨by norm_num, by norm_num, by norm_num⟩, h.2.1, h.2.2.1, h.2.2.2⟩

/-- C7 counterexample: with `minCostPerEvent = 500`, `maxCostPerEvent =
5000`, `costModifier = 2` and a draw of `r = 0.9999`, the code produces a
cost of 10001.1, i.e. a rounded base draw of 5000.55 — strictly greater
than `maxCostPerEvent` — so the cost is NOT of the form
`round2(base) * costModifier` for any base draw in `[min, max]`. -/
theorem C7_counterexample :
    generateCost 500 5000 2 (9999 / 10000) = 100011 / 10 ∧
    ¬ ∃ base : ℚ, 500 ≤ base ∧ base ≤ 5000 ∧
      round2 base * 2 = generateCost 500 5000 2 (9999 / 10000) := by
  have hval : generateCost 500 5000 2 (9999 / 10000) = 100011 / 10 := by
    rw [generateCost, round2]
    have hbase : (9999 / 10000 : ℚ) * (5000 - 500 + 1) + 500 = 50005499 / 10000 := by
      norm_num
    rw [hbase]
    have hround : round ((50005499 / 10000 : ℚ) * 100) = 500055 := by
      rw [round_eq, Int.floor_eq_iff]
      norm_num
    rw [hround]
    norm_num
  refine ⟨hval, ?_⟩
  rintro ⟨base, hb1, hb2, heq⟩
  rw [hval] at heq
  have hmono : round2 base ≤ round2 5000 := round2_le_round2 base 5000 hb2
  have h5000 : round2 (5000 : ℚ) = 5000 := by
    rw [round2]
    have : round ((5000 : ℚ) * 100) = 500000 := by
      rw [round_eq, Int.floor_eq_iff]
      norm_num
    rw [this]
    norm_num
  rw [h5000] at hmono
  linarith

/-! ## C3: competitive-mode readiness gating -/

/-- The simulations service never writes the game document: both on
success and on a mid-simulation error the world's game is unchanged. -/
theorem simsSimulateTurn_game_eq (w : World) :
    (∀ w1, simsSimulateTurn w = .ok w1 → w1.game = w.game) ∧
    (∀ e w1, simsSimulateTurn w = .error (e, w1) → w1.game = w.game) := by
  constructor
  · intro w1 h
    rw [simsSimulateTurn] at h
    split at h
    · simp at h
    · split at h
      · simp at h
      · split at h
        · simp at h
        · simp only [Except.ok.injEq] at h
          subst h
          rfl
  · intro e w1 h
    rw [simsSimulateTurn] at h
    split at h
    · simp only [Except.error.injEq, Prod.mk.injEq] at h
      rw [← h.2]
    · split at h
      · simp only [Except.error.injEq, Prod.mk.injEq] at h
        rw [← h.2]
      · split at h
        · simp only [Except.error.injEq, Prod.mk.injEq] at h
          rw [← h.2]
        · simp at h

/-- The gated branch of games `simulateTurn`: below the ready threshold the
call returns the world with only the pushed `readyOrganisations`. -/
theorem gamesSimulateTurn_gated (w : World) (oid : Id)
    (hne : w.game.state ≠ GameState.Ended)
    (hc : w.game.gameType = GameType.Competitive)
    (hlen : (w.game.readyOrganisations ++ [oid]).length <
      w.game.organisations.length) :
    gamesSimulateTurn w oid = .ok { w with game :=
      { w.game with readyOrganisations := w.game.readyOrganisations ++ [oid] } } := by
  have hpush : pushReady w.game oid =
      { w.game with readyOrganisations := w.game.readyOrganisations ++ [oid] } := by
    rw [pushReady, if_pos hc]
  rw [gamesSimulateTurn, if_neg hne, if_pos (by rw [hpush]; exact ⟨hc, hlen⟩), hpush]

/-- The firing branch of games `simulateTurn`: at or above the ready
threshold (or outside competitive mode) the call resets
`readyOrganisations`, sets the state to `Simulating`, runs the simulation
and advances the re-fetched game. -/
theorem gamesSimulateTurn_fire (w : World) (oid : Id)
    (hne : w.game.state ≠ GameState.Ended)
    (hc : w.game.gameType = GameType.Competitive)
    (hlen : ¬ (w.game.readyOrganisations ++ [oid]).length <
      w.game.organisations.length) :
    gamesSimulateTurn w oid =
      match simsSimulateTurn { w with game := { w.game with
          readyOrganisations := [], state := GameState.Simulating } } with
      | .error e => .error e
      | .ok w1 => .ok { w1 with game := advanceState w1.game } := by
  have hpush : pushReady w.game oid =
      { w.game with readyOrganisations := w.game.readyOrganisations ++ [oid] } := by
    rw [pushReady, if_pos hc]
  rw [gamesSimulateTurn, if_neg hne, if_neg (by rw [hpush]; rintro ⟨-, hl⟩; exact hlen hl),
    hpush]

/-- C3 (amended): in a Competitive game each simulate-turn request appends
the requesting organisation to `readyOrganisations`, and the simulation
with its state transition fires once the LENGTH of `readyOrganisations`
reaches the number of organisations in the game (the code counts entries;
it does not check that every organisation is present, so duplicate
requests from one organisation also fire it).  Until that point the call
returns the world unchanged except for the pushed `readyOrganisations` —
the state stays as it was, no events are generated and no balances change.
Whenever the simulation does fire, the saved game has
`readyOrganisations = []`, on the success path and on the error path
alike. -/
theorem C3_readiness_gating (w : World) (oid : Id)
    (hc : w.game.gameType = GameType.Competitive)
    (hne : w.game.state ≠ GameState.Ended) :
    ((w.game.readyOrganisations ++ [oid]).length < w.game.organisations.length →
      gamesSimulateTurn w oid = .ok { w with game :=
        { w.game with readyOrganisations := w.game.readyOrganisations ++ [oid] } }) ∧
    (¬ (w.game.readyOrganisations ++ [oid]).length < w.game.organisations.length →
      match gamesSimulateTurn w oid with
      | .ok w1 => w1.game = advanceState { w.game with
          readyOrganisations := [], state := GameState.Simulating } ∧
          w1.game.readyOrganisations = []
      | .error e => e.2.game = { w.game with
          readyOrganisations := [], state := GameState.Simulating } ∧
          e.2.game.readyOrganisations = []) := by
  have hready : ∀ g : Game, (advanceState g).readyOrganisations =
      g.readyOrganisations := by
    intro g
    rw [advanceState]
    split
    · rfl
    · rfl
  constructor
  · intro hlen
    exact gamesSimulateTurn_gated w oid hne hc hlen
  · intro hlen
    rw [gamesSimulateTurn_fire w oid hne hc hlen]
    have hpres := simsSimulateTurn_game_eq { w with game := { w.game with
      readyOrganisations := [], state := GameState.Simulating } }
    cases hs : simsSimulateTurn { w with game := { w.game with
        readyOrganisations := [], state := GameState.Simulating } } with
    | ok w1 =>
      have hg := hpres.1 w1 hs
      refine ⟨by rw [hg], ?_⟩
      rw [hready, hg]
    | error e =>
      have hg := hpres.2 e.1 e.2 hs
      exact ⟨hg, by rw [hg]⟩

/-- The first organisation of the concrete competitive game. -/
def org11 : Organisation :=
  { id := 11, balance := 0, pastBalances := [], controls := [], events := [],
    members := [] }

/-- The second organisation of the concrete competitive game. -/
def org12 : Organisation :=
  { id := 12, balance := 0, pastBalances := [], controls := [], events := [],
    members := [] }

/-- A two-organisation Competitive game configured so that a fired turn
generates zero events (`minNumOfEvents = maxNumOfEvents = 0`). -/
def gameC3 : Game :=
  { id := 2, currentTurn := 1, maxTurns := 5, moneyPerTurn := 1000,
    state := GameState.Purchasing, gameType := GameType.Competitive,
    organisations := [11, 12], readyOrganisations := [], minNumOfEvents := 0,
    maxNumOfEvents := 0, minCostPerEvent := 500, maxCostPerEvent := 5000,
    allowUnavoidableIncidents := true, source := "original" }

/-- The world of the C3 witness: no organisation ready yet. -/
def worldC3 : World :=
  { game := gameC3, orgs := [org11, org12], gen := genEmpty }

/-- C3 witness: with two organisations and none ready, the first
simulate-turn call is gated — it records the caller in
`readyOrganisations` and changes nothing else. -/
theorem C3_readiness_gating_witness :
    worldC3.game.gameType = GameType.Competitive ∧
    worldC3.game.state ≠ GameState.Ended ∧
    (worldC3.game.readyOrganisations ++ [11]).length <
      worldC3.game.organisations.length ∧
    gamesSimulateTurn worldC3 11 = .ok { worldC3 with game :=
      { worldC3.game with readyOrganisations := [11] } } := by
  refine ⟨rfl, by decide, by decide, ?_⟩
  have h := (C3_readiness_gating worldC3 11 rfl (by decide)).1 (by decide)
  simpa using h

/-- Composing the three stages of simulations `simulateTurn` when each
succeeds. -/
theorem simsSimulateTurn_eq_of (w : World) (events : List EventC)
    (gs1 : GenState) (orgs1 orgs2 : List Organisation)
    (h1 : simulateEventsForTurn w.game w.gen = .ok (events, gs1))
    (h2 : orgTurnPass events w.game.currentTurn w.game.organisations w.orgs = .ok orgs1)
    (h3 : incomePass w.game.moneyPerTurn w.game.organisations orgs1 = .ok orgs2) :
    simsSimulateTurn w = .ok { w with gen := gs1, orgs := orgs2 } := by
  rw [simsSimulateTurn, h1]
  show (match orgTurnPass events w.game.currentTurn w.game.organisations w.orgs with
    | .error e => Except.error (e.1, { w with gen := gs1, orgs := e.2 })
    | .ok os1 =>
      match incomePass w.game.moneyPerTurn w.game.organisations os1 with
      | .error e => Except.error (e.1, { w with gen := gs1, orgs := e.2 })
      | .ok os2 => Except.ok { w with gen := gs1, orgs := os2 }) = _
  rw [h2]
  show (match incomePass w.game.moneyPerTurn w.game.organisations orgs1 with
    | .error e => Except.error (e.1, { w with gen := gs1, orgs := e.2 })
    | .ok os2 => Except.ok { w with gen := gs1, orgs := os2 }) = _
  rw [h3]

/-- The world of the C3 counterexample: organisation 11 is already the
sole entry in `readyOrganisations`, and organisation 11 will call again. -/
def worldC3cex : World :=
  { game := { gameC3 with readyOrganisations := [11] }, orgs := [org11, org12],
    gen := genEmpty }

/-- The game document saved when the counterexample call fires. -/
def gameC3fire : Game :=
  { gameC3 with readyOrganisations := [], state := GameState.Simulating }

/-- C3 counterexample: in the two-organisation Competitive game where only
organisation 11 is ready, a SECOND call from organisation 11 itself makes
`readyOrganisations = [11, 11]`, whose length reaches the organisation
count, so the simulation fires and the turn advances to 2 — even though
organisation 12 never appears in `readyOrganisations`.  The gate counts
entries; it does not wait until `readyOrganisations` contains every
organisation in the game. -/
theorem C3_counterexample :
    worldC3cex.game.organisations = [11, 12] ∧
    (12 : Id) ∉ worldC3cex.game.readyOrganisations ++ [11] ∧
    match gamesSimulateTurn worldC3cex 11 with
    | .ok w1 => w1.game.currentTurn = 2 ∧ w1.game.state = GameState.Purchasing ∧
        w1.game.readyOrganisations = []
    | .error _ => False := by
  refine ⟨rfl, by decide, ?_⟩
  have hgen : simulateEventsForTurn gameC3fire genEmpty =
      .ok ([], { genEmpty with rngIdx := 1 }) := by
    rw [simulateEventsForTurn]
    norm_num [GenState.next, genEmpty, gameC3fire, gameC3, generateEvents]
  have hpass : orgTurnPass [] 1 [11, 12] [org11, org12] =
      .ok [{ org11 with pastBalances := [0] }, { org12 with pastBalances := [0] }] :=
    rfl
  have hinc : incomePass 1000 [11, 12]
      [{ org11 with pastBalances := [0] }, { org12 with pastBalances := [0] }] =
      .ok [{ org11 with pastBalances := [0], balance := 0 + 1000 },
           { org12 with pastBalances := [0], balance := 0 + 1000 }] :=
    rfl
  have hs : simsSimulateTurn { worldC3cex with game := { worldC3cex.game with
      readyOrganisations := [], state := GameState.Simulating } } =
      .ok { game := gameC3fire,
            orgs := [{ org11 with pastBalances := [0], balance := 0 + 1000 },
                     { org12 with pastBalances := [0], balance := 0 + 1000 }],
            gen := { genEmpty with rngIdx := 1 } } := by
    exact simsSimulateTurn_eq_of _ [] { genEmpty with rngIdx := 1 } _ _ hgen hpass hinc
  rw [gamesSimulateTurn_fire worldC3cex 11 (by decide) rfl (by decide), hs]
  exact ⟨rfl, rfl, rfl⟩

end InvestorDefend
